import Mathlib

/-!
Shallow embedding of the mavis-id-js SDK core: the `MavisIdWallet` EIP-1193
provider (constructor, `connect`, `disconnect`, `request` dispatcher), the
standalone `authorize` / `parseRedirectUrl` entry points from `auth.ts`, and
the cross-window messenger.

Conventions of the embedding:
- The browser's asynchronous cross-window handshake
  (`communicateHelper.sendRequest(...)`) is abstracted as an explicit
  `outcome : Except IdError IdResponse` argument: the settled value of the
  awaited promise.
- Mutable instance state (`this.address`) together with the persisted
  localStorage entry under `STORAGE_ADDRESS_KEY` is the explicit
  `WalletState`; every stateful operation returns the new state plus the
  list of events emitted (in order).
- viem's `getAddress` (EIP-55 checksum normalisation, used by the
  `validateIdAddress` helper) is kept as a parameter
  `checksum : String → Option String`: it returns the checksummed form of a
  syntactically valid address and `none` otherwise.  All theorems hold for
  every such function.
-/

/-- EIP-1193 events emitted by the provider (`Eip1193EventName` in the
source), with their payloads: `accountsChanged` carries the address list,
`connect` carries the chain id, `disconnect` carries the
`ProviderDisconnectedError` message. -/
inductive Eip1193Event where
  | accountsChanged (addresses : List String)
  | connect (chainId : Nat)
  | disconnect (msg : String)
deriving DecidableEq, Repr

/-- Errors surfaced to callers.  `chainDisconnected` embeds viem's
`ChainDisconnectedError` wrapping `Chain {chainId} is not supported.`;
`unauthorizedProvider` embeds viem's `UnauthorizedProviderError` with its
message; `thrown` embeds a plain thrown string (as in `parseRedirectUrl`);
`comm` embeds a rejection coming out of the cross-window handshake itself
(popup closed, failure payload, ...). -/
inductive IdError where
  | chainDisconnected (chainId : Nat)
  | unauthorizedProvider (msg : String)
  | thrown (msg : String)
  | comm (msg : String)
deriving DecidableEq, Repr

/-- The payload delivered by the ID provider on a successful handshake
(`IdResponse` in the source): the credential and the raw wallet address,
either of which may be absent. -/
structure IdResponse where
  id_token : Option String
  address : Option String
deriving DecidableEq, Repr

/-- Mutable state of one provider instance: the in-memory `this.address`
field and the persisted localStorage value under `STORAGE_ADDRESS_KEY`
(`none` = key absent). -/
structure WalletState where
  address : Option String
  storage : Option String
deriving DecidableEq, Repr

/-- Modelled from the spec: `utils/validate-address`'s `validateIdAddress`
is not under `src/` (only its callers are).  Per §4.3 it requires a
syntactically valid, checksummed Ethereum address and returns `undefined`
otherwise, never throwing; corrupted or empty stored values are treated as
absent.  `checksum` stands for viem's `getAddress`: the checksummed form of
a syntactically valid address, `none` on anything else (the empty string is
never a valid address). -/
def validateIdAddress (checksum : String → Option String) :
    Option String → Option String
  | none => none
  | some s => if s.isEmpty then none else checksum s

/-- Options accepted by `MavisIdWallet.create` / `authorize`
(`MavisIdWalletOpts = AuthorizeOpts & { chainId }`), with the constructor's
defaults already applied. -/
structure MavisIdWalletOpts where
  clientId : String
  chainId : Nat
  scopes : List String
  idOrigin : String
  redirectUrl : String
deriving DecidableEq, Repr

/-- The underlying viem chain client, reduced to the chain it was created
for. -/
structure ViemClient where
  chainId : Nat
deriving DecidableEq, Repr

/-- The immutable fields of a constructed `MavisIdWallet` instance. -/
structure Wallet where
  clientId : String
  idOrigin : String
  redirectUrl : String
  scopes : List String
  chainId : Nat
  viemClient : ViemClient
deriving DecidableEq, Repr

namespace MavisIdWallet

/-- `MavisIdWallet.addDefaultScopes`: copies the caller's scopes and pushes
`"openid"` and then `"wallet"` when not already present. -/
def addDefaultScopes (scopes : List String) : List String :=
  let newScopes1 := if scopes.contains "openid" then scopes else scopes ++ ["openid"]
  let newScopes2 :=
    if newScopes1.contains "wallet" then newScopes1 else newScopes1 ++ ["wallet"]
  newScopes2

/-- `MavisIdWallet.createViemClient`: throws `ChainDisconnectedError` when
`VIEM_CHAIN_MAPPING[chainId]` has no entry, else builds the client.  The
mapping itself (`common/chain`, not under `src/`) is kept as the predicate
`supported`. -/
def createViemClient (supported : Nat → Bool) (chainId : Nat) :
    Except IdError ViemClient :=
  if supported chainId then Except.ok ⟨chainId⟩
  else Except.error (IdError.chainDisconnected chainId)

/-- `MavisIdWallet.create` / the protected constructor: records the options
(scopes extended by `addDefaultScopes`) and creates the viem client, which
may throw for an unmapped chain id. -/
def create (supported : Nat → Bool) (options : MavisIdWalletOpts) :
    Except IdError Wallet :=
  match createViemClient supported options.chainId with
  | Except.error e => Except.error e
  | Except.ok viemClient =>
      Except.ok
        { clientId := options.clientId
          idOrigin := options.idOrigin
          redirectUrl := options.redirectUrl
          scopes := addDefaultScopes options.scopes
          chainId := options.chainId
          viemClient := viemClient }

/-- The value `connect` resolves with. -/
structure ConnectResult where
  accessToken : Option String
  address : String
deriving DecidableEq, Repr

/-- `MavisIdWallet.getIdAddress`: the in-memory address when set, otherwise
the stored value (`getStorage(STORAGE_ADDRESS_KEY) || ""`) passed through
`validateIdAddress`. -/
def getIdAddress (checksum : String → Option String) (s : WalletState) :
    Option String :=
  match s.address with
  | some a => some a
  | none =>
      let storedAddress := s.storage.getD ""
      validateIdAddress checksum (some storedAddress)

/-- `MavisIdWallet.connect`: awaits the handshake (`outcome`), validates the
returned address, and on success writes the address to storage and to the
instance, emits `accountsChanged([address])` then `connect({chainId})`, and
resolves with the token/address pair.  A validation failure throws
`UnauthorizedProviderError("ID do NOT return valid address")` before any
write or emit. -/
def connect (checksum : String → Option String) (w : Wallet) (s : WalletState)
    (outcome : Except IdError IdResponse) :
    Except IdError ConnectResult × WalletState × List Eip1193Event :=
  match outcome with
  | Except.error e => (Except.error e, s, [])
  | Except.ok authData =>
      let accessToken := authData.id_token
      let rawAddress := authData.address
      match validateIdAddress checksum rawAddress with
      | none =>
          (Except.error (IdError.unauthorizedProvider "ID do NOT return valid address"),
            s, [])
      | some address =>
          (Except.ok { accessToken := accessToken, address := address },
            { address := some address, storage := some address },
            [Eip1193Event.accountsChanged [address], Eip1193Event.connect w.chainId])

/-- `MavisIdWallet.disconnect`: records whether `this.address` was set,
unconditionally removes the stored key and clears the in-memory address,
and emits `accountsChanged([])` then `disconnect(ProviderDisconnectedError)`
exactly when the in-memory address was set. -/
def disconnect (s : WalletState) : WalletState × List Eip1193Event :=
  let shouldEmitDisconnectEvent := s.address.isSome
  let s1 : WalletState := { address := none, storage := none }
  if shouldEmitDisconnectEvent then
    (s1, [Eip1193Event.accountsChanged [],
          Eip1193Event.disconnect "The provider is disconnected from all chains."])
  else (s1, [])

/-- `MavisIdWallet.getIdAddressOrConnect`: the cached address when
available, otherwise the address of a fresh `connect()`. -/
def getIdAddressOrConnect (checksum : String → Option String) (w : Wallet)
    (s : WalletState) (outcome : Except IdError IdResponse) :
    Except IdError String × WalletState × List Eip1193Event :=
  match getIdAddress checksum s with
  | some address => (Except.ok address, s, [])
  | none =>
      match connect checksum w s outcome with
      | (Except.ok result, s1, events) => (Except.ok result.address, s1, events)
      | (Except.error e, s1, events) => (Except.error e, s1, events)

end MavisIdWallet

/-- viem's `toHex` on a number: `"0x"` followed by lowercase hex digits. -/
def toHex (n : Nat) : String :=
  "0x" ++ String.mk (Nat.toDigits 16 n)

/-- The RPC methods the dispatcher distinguishes; everything else is
`other` and passes through to the viem client. -/
inductive RpcMethod where
  | eth_chainId
  | eth_accounts
  | eth_requestAccounts
  | personal_sign
  | eth_signTypedData_v4
  | eth_sendTransaction
  | other (name : String)
deriving DecidableEq, Repr

/-- Whether a method is one of the three signing/transaction methods that
require an authorized address before delegating. -/
def RpcMethod.isSignMethod : RpcMethod → Bool
  | RpcMethod.personal_sign => true
  | RpcMethod.eth_signTypedData_v4 => true
  | RpcMethod.eth_sendTransaction => true
  | _ => false

/-- What `request` resolves with: a hex string (`eth_chainId`), an address
list, a delegated signing/transaction round-trip (recorded as the method
together with the `expectAddress` handed to `personalSign` /
`signTypedDataV4` / `sendTransaction`), or a pass-through to the viem
client. -/
inductive RpcResult where
  | hex (s : String)
  | addresses (addrs : List String)
  | signCall (method : RpcMethod) (expectAddress : String)
  | passthrough (name : String)
deriving DecidableEq, Repr

namespace MavisIdWallet

/-- `MavisIdWallet.request`: the EIP-1193 dispatcher.  `outcome` is the
settled handshake promise consumed if and only if the branch runs
`connect()`. -/
def request (checksum : String → Option String) (w : Wallet) (s : WalletState)
    (outcome : Except IdError IdResponse) (method : RpcMethod) :
    Except IdError RpcResult × WalletState × List Eip1193Event :=
  match method with
  | RpcMethod.eth_chainId => (Except.ok (RpcResult.hex (toHex w.chainId)), s, [])
  | RpcMethod.eth_accounts =>
      let address := getIdAddress checksum s
      let result := match address with | some a => [a] | none => []
      (Except.ok (RpcResult.addresses result), s, [])
  | RpcMethod.eth_requestAccounts =>
      match connect checksum w s outcome with
      | (Except.ok result, s1, events) =>
          (Except.ok (RpcResult.addresses [result.address]), s1, events)
      | (Except.error e, s1, events) => (Except.error e, s1, events)
  | RpcMethod.personal_sign =>
      match getIdAddressOrConnect checksum w s outcome with
      | (Except.ok expectAddress, s1, events) =>
          (Except.ok (RpcResult.signCall RpcMethod.personal_sign expectAddress), s1, events)
      | (Except.error e, s1, events) => (Except.error e, s1, events)
  | RpcMethod.eth_signTypedData_v4 =>
      match getIdAddressOrConnect checksum w s outcome with
      | (Except.ok expectAddress, s1, events) =>
          (Except.ok (RpcResult.signCall RpcMethod.eth_signTypedData_v4 expectAddress),
            s1, events)
      | (Except.error e, s1, events) => (Except.error e, s1, events)
  | RpcMethod.eth_sendTransaction =>
      match getIdAddressOrConnect checksum w s outcome with
      | (Except.ok expectAddress, s1, events) =>
          (Except.ok (RpcResult.signCall RpcMethod.eth_sendTransaction expectAddress),
            s1, events)
      | (Except.error e, s1, events) => (Except.error e, s1, events)
  | RpcMethod.other name => (Except.ok (RpcResult.passthrough name), s, [])

end MavisIdWallet

/-- The value `authorize` (auth.ts) resolves with: the raw credential and
the validated address, which may be `undefined`. -/
structure AuthorizeResult where
  accessToken : Option String
  address : Option String
deriving DecidableEq, Repr

/-- `authorize` (auth.ts): awaits the handshake and resolves with the
credential and the *validated* address — an invalid address yields
`address = undefined` rather than a rejection. -/
def authorize (checksum : String → Option String)
    (outcome : Except IdError IdResponse) : Except IdError AuthorizeResult :=
  match outcome with
  | Except.error e => Except.error e
  | Except.ok authData =>
      Except.ok
        { accessToken := authData.id_token
          address := validateIdAddress checksum authData.address }

/-- What `parseRedirectUrl` returns when both discriminator checks pass. -/
structure ParsedRedirect where
  state : Option String
  accessToken : Option String
  address : Option String
deriving DecidableEq, Repr

/-- `url.searchParams.get(key)`: the first value bound to `key` in the
query string, or `null`. -/
def searchParamsGet (query : List (String × String)) (key : String) :
    Option String :=
  (query.find? (fun p => p.1 == key)).map (fun p => p.2)

/-- `parseRedirectUrl` (auth.ts), applied to the current location's query
string: throws `"parseRedirectUrl: invalid method"` unless `method=auth`,
then `"parseRedirectUrl: authorization failed"` unless `type=success`, and
otherwise returns the `state`, the `data` parameter as `accessToken`, and
the validated `address` parameter. -/
def parseRedirectUrl (checksum : String → Option String)
    (query : List (String × String)) : Except IdError ParsedRedirect :=
  if searchParamsGet query "method" ≠ some "auth" then
    Except.error (IdError.thrown "parseRedirectUrl: invalid method")
  else if searchParamsGet query "type" ≠ some "success" then
    Except.error (IdError.thrown "parseRedirectUrl: authorization failed")
  else
    Except.ok
      { state := searchParamsGet query "state"
        accessToken := searchParamsGet query "data"
        address := validateIdAddress checksum (searchParamsGet query "address") }

/-- Modelled from the spec: the `core/communicate` `CommunicateHelper` is
not under `src/` (only its callers are).  Per §4.1, one request is pending
at a time, identified by its correlation token. -/
structure PendingRequest where
  token : String
deriving DecidableEq, Repr

/-- Modelled from the spec: the messenger's state — the configured
ID-provider origin and the currently pending request, if any. -/
structure MessengerState where
  idOrigin : String
  pending : Option PendingRequest
deriving DecidableEq, Repr

/-- Modelled from the spec: an inbound cross-window message — its source
origin, the embedded correlation token (`state`), the success/failure
discriminator, and the payload. -/
structure InboundMessage where
  origin : String
  state : String
  isSuccess : Bool
  payload : IdResponse
deriving DecidableEq, Repr

/-- What handling one inbound message does to the pending promise. -/
inductive MessengerOutcome where
  | ignored
  | invalidState
  | resolved (payload : IdResponse)
  | rejected (payload : IdResponse)
deriving DecidableEq, Repr

/-- Modelled from the spec (§4.1): on every inbound message, discard it if
the source origin differs from the configured ID-provider origin; fail with
`InvalidStateError` if no request is pending; discard it if the embedded
token differs from the pending request's token; otherwise settle
(resolve on success, reject on failure) and clear the pending request. -/
def handleMessage (m : MessengerState) (msg : InboundMessage) :
    MessengerOutcome × MessengerState :=
  if msg.origin ≠ m.idOrigin then (MessengerOutcome.ignored, m)
  else
    match m.pending with
    | none => (MessengerOutcome.invalidState, m)
    | some p =>
        if msg.state ≠ p.token then (MessengerOutcome.ignored, m)
        else if msg.isSuccess then
          (MessengerOutcome.resolved msg.payload, { m with pending := none })
        else
          (MessengerOutcome.rejected msg.payload, { m with pending := none })

/-! Sample values used by the witness theorems. -/

/-- A checksum function for the witnesses: accepts exactly the two
addresses `0xAAAA` and `0xBBBB`. -/
def sampleChecksum : String → Option String := fun x =>
  if x == "0xAAAA" then some "0xAAAA"
  else if x == "0xBBBB" then some "0xBBBB"
  else none

/-- A chain mapping for the witnesses: only chain 2020 is known. -/
def sampleSupported : Nat → Bool := fun n => n == 2020

/-- Sample constructor options. -/
def sampleOpts : MavisIdWalletOpts :=
  { clientId := "client-1"
    chainId := 2020
    scopes := ["profile"]
    idOrigin := "https://id.example"
    redirectUrl := "https://app.example" }

/-- The wallet `MavisIdWallet.create sampleSupported sampleOpts` builds. -/
def sampleWallet : Wallet :=
  { clientId := "client-1"
    idOrigin := "https://id.example"
    redirectUrl := "https://app.example"
    scopes := ["profile", "openid", "wallet"]
    chainId := 2020
    viemClient := ⟨2020⟩ }

/-! Claim theorems. -/

/-- Claim C1: when the authorization payload's address fails validation,
`connect()` rejects with the invalid-address error (the code's
`UnauthorizedProviderError("ID do NOT return valid address")`), the state
is unchanged — nothing is written to storage and the in-memory address
stays as it was (in particular an empty session cache remains empty) — and
no event is emitted. -/
theorem C1_connect_invalid_address_rejects_and_caches_nothing
    (checksum : String → Option String) (w : Wallet) (s : WalletState)
    (resp : IdResponse)
    (h : validateIdAddress checksum resp.address = none) :
    MavisIdWallet.connect checksum w s (Except.ok resp) =
      (Except.error (IdError.unauthorizedProvider "ID do NOT return valid address"),
        s, []) := by
  simp [MavisIdWallet.connect, h]

/-- Witness for C1: a success payload carrying the invalid address
`"0xZZ"`, against an empty session cache. -/
theorem C1_connect_invalid_address_rejects_and_caches_nothing_witness :
    MavisIdWallet.connect sampleChecksum sampleWallet
        { address := none, storage := none }
        (Except.ok { id_token := some "tok", address := some "0xZZ" }) =
      (Except.error (IdError.unauthorizedProvider "ID do NOT return valid address"),
        { address := none, storage := none }, []) :=
  C1_connect_invalid_address_rejects_and_caches_nothing sampleChecksum sampleWallet
    { address := none, storage := none }
    { id_token := some "tok", address := some "0xZZ" } (by decide)

/-- Claim C2: for every provider state — a cached address present or not —
`eth_requestAccounts` runs the full `connect()` handshake rather than
returning the cached address: on a successful handshake that validates to
`addr` it returns `[addr]`, emits `accountsChanged([addr])` (followed by
`connect`), and leaves the provider connected with `addr` as the in-memory
and persisted address, whatever was cached before. -/
theorem C2_requestAccounts_always_reconnects
    (checksum : String → Option String) (w : Wallet) (s : WalletState)
    (resp : IdResponse) (addr : String)
    (h : validateIdAddress checksum resp.address = some addr) :
    MavisIdWallet.request checksum w s (Except.ok resp)
        RpcMethod.eth_requestAccounts =
      (Except.ok (RpcResult.addresses [addr]),
        { address := some addr, storage := some addr },
        [Eip1193Event.accountsChanged [addr], Eip1193Event.connect w.chainId]) := by
  simp [MavisIdWallet.request, MavisIdWallet.connect, h]

/-- Witness for C2: a stale address `"0xAAAA"` is cached, the handshake
returns `"0xBBBB"`, and the request yields the fresh `"0xBBBB"`. -/
theorem C2_requestAccounts_always_reconnects_witness :
    MavisIdWallet.request sampleChecksum sampleWallet
        { address := some "0xAAAA", storage := some "0xAAAA" }
        (Except.ok { id_token := some "tok", address := some "0xBBBB" })
        RpcMethod.eth_requestAccounts =
      (Except.ok (RpcResult.addresses ["0xBBBB"]),
        { address := some "0xBBBB", storage := some "0xBBBB" },
        [Eip1193Event.accountsChanged ["0xBBBB"], Eip1193Event.connect 2020]) :=
  C2_requestAccounts_always_reconnects sampleChecksum sampleWallet
    { address := some "0xAAAA", storage := some "0xAAAA" }
    { id_token := some "tok", address := some "0xBBBB" } "0xBBBB" (by decide)

/-- Claim C3: while a request is pending, an inbound message whose source
origin differs from the configured ID-provider origin is discarded: it
neither resolves nor rejects the pending promise and the messenger state —
the pending request included — is unchanged. -/
theorem C3_foreign_origin_message_ignored
    (m : MessengerState) (msg : InboundMessage) (p : PendingRequest)
    (_hpending : m.pending = some p) (h : msg.origin ≠ m.idOrigin) :
    handleMessage m msg = (MessengerOutcome.ignored, m) := by
  simp [handleMessage, h]

/-- Witness for C3: a forged message from `"https://evil.example"` with the
correct correlation token, injected while a request is pending, is
ignored. -/
theorem C3_foreign_origin_message_ignored_witness :
    handleMessage
        { idOrigin := "https://id.example", pending := some { token := "t-1" } }
        { origin := "https://evil.example", state := "t-1", isSuccess := true,
          payload := { id_token := some "tok", address := some "0xAAAA" } } =
      (MessengerOutcome.ignored,
        { idOrigin := "https://id.example", pending := some { token := "t-1" } }) :=
  C3_foreign_origin_message_ignored
    { idOrigin := "https://id.example", pending := some { token := "t-1" } }
    { origin := "https://evil.example", state := "t-1", isSuccess := true,
      payload := { id_token := some "tok", address := some "0xAAAA" } }
    { token := "t-1" } rfl (by decide)

/-- Counterexample for C4: a provider whose address lives only in
persistent storage (in-memory field unset, e.g. a fresh instance after a
page reload) is Connected in the claim's sense — `getIdAddress` (and hence
`eth_accounts`) reports the cached address — yet `disconnect()` emits no
event at all, because the source gates the events on the in-memory field
only. -/
theorem C4_disconnect_counterexample :
    MavisIdWallet.getIdAddress sampleChecksum
        { address := none, storage := some "0xAAAA" } = some "0xAAAA" ∧
    MavisIdWallet.disconnect { address := none, storage := some "0xAAAA" } =
      ({ address := none, storage := none }, []) := by
  constructor <;> rfl

/-- Claim C4 (amended): `disconnect()` always removes the persisted address
and clears the in-memory address; it emits `accountsChanged([])` followed
by `disconnect` with a disconnect-reason error exactly when the in-memory
address field was set, and emits nothing otherwise — in particular, an
instance whose address was cached only in persistent storage gets its
storage cleared without any event. -/
theorem C4_disconnect_amended (s : WalletState) :
    MavisIdWallet.disconnect s =
      ({ address := none, storage := none },
        if s.address.isSome then
          [Eip1193Event.accountsChanged [],
            Eip1193Event.disconnect "The provider is disconnected from all chains."]
        else []) := by
  cases h : s.address.isSome <;> simp [MavisIdWallet.disconnect, h]

/-- Claim C5: for every provider state and every pending-handshake outcome,
`eth_accounts` returns the cached address (`getIdAddress`: the in-memory
address, or the validated stored one) as a single-element list when present
and the empty list otherwise, leaves the state unchanged, emits nothing,
and never consumes the handshake — the result is the same whatever
`outcome` is, so the popup/authorization path is never taken. -/
theorem C5_eth_accounts_reads_cache_only
    (checksum : String → Option String) (w : Wallet) (s : WalletState)
    (outcome : Except IdError IdResponse) :
    MavisIdWallet.request checksum w s outcome RpcMethod.eth_accounts =
      (Except.ok (RpcResult.addresses
          (match MavisIdWallet.getIdAddress checksum s with
            | some a => [a]
            | none => [])),
        s, []) := by
  rfl

/-- Claim C6: each of `personal_sign`, `eth_signTypedData_v4` and
`eth_sendTransaction` delegates to the remote confirmation round-trip with
the cached address as `expectAddress` when one is present (no state change,
no events), and otherwise first runs `connect()` and uses the freshly
authorized address, propagating the connect failure if there is one. -/
theorem C6_sign_methods_use_cached_address_or_connect
    (checksum : String → Option String) (w : Wallet) (s : WalletState)
    (outcome : Except IdError IdResponse) (method : RpcMethod)
    (hm : method.isSignMethod = true) :
    (∀ a, MavisIdWallet.getIdAddress checksum s = some a →
      MavisIdWallet.request checksum w s outcome method =
        (Except.ok (RpcResult.signCall method a), s, [])) ∧
    (MavisIdWallet.getIdAddress checksum s = none →
      MavisIdWallet.request checksum w s outcome method =
        (match MavisIdWallet.connect checksum w s outcome with
          | (Except.ok r, s1, events) =>
              (Except.ok (RpcResult.signCall method r.address), s1, events)
          | (Except.error e, s1, events) => (Except.error e, s1, events))) := by
  have hcached : ∀ a, MavisIdWallet.getIdAddress checksum s = some a →
      MavisIdWallet.getIdAddressOrConnect checksum w s outcome =
        (Except.ok a, s, []) := by
    intro a ha
    simp [MavisIdWallet.getIdAddressOrConnect, ha]
  have hfresh : MavisIdWallet.getIdAddress checksum s = none →
      MavisIdWallet.getIdAddressOrConnect checksum w s outcome =
        (match MavisIdWallet.connect checksum w s outcome with
          | (Except.ok r, s1, events) => (Except.ok r.address, s1, events)
          | (Except.error e, s1, events) => (Except.error e, s1, events)) := by
    intro hnone
    simp [MavisIdWallet.getIdAddressOrConnect, hnone]
  cases method with
  | personal_sign =>
      refine ⟨fun a ha => ?_, fun hnone => ?_⟩
      · simp [MavisIdWallet.request, hcached a ha]
      · simp only [MavisIdWallet.request, hfresh hnone]
        rcases MavisIdWallet.connect checksum w s outcome with ⟨r | e, s1, events⟩ <;> rfl
  | eth_signTypedData_v4 =>
      refine ⟨fun a ha => ?_, fun hnone => ?_⟩
      · simp [MavisIdWallet.request, hcached a ha]
      · simp only [MavisIdWallet.request, hfresh hnone]
        rcases MavisIdWallet.connect checksum w s outcome with ⟨r | e, s1, events⟩ <;> rfl
  | eth_sendTransaction =>
      refine ⟨fun a ha => ?_, fun hnone => ?_⟩
      · simp [MavisIdWallet.request, hcached a ha]
      · simp only [MavisIdWallet.request, hfresh hnone]
        rcases MavisIdWallet.connect checksum w s outcome with ⟨r | e, s1, events⟩ <;> rfl
  | eth_chainId => exact absurd hm (by simp [RpcMethod.isSignMethod])
  | eth_accounts => exact absurd hm (by simp [RpcMethod.isSignMethod])
  | eth_requestAccounts => exact absurd hm (by simp [RpcMethod.isSignMethod])
  | other name => exact absurd hm (by simp [RpcMethod.isSignMethod])

/-- Witness for C6: with `"0xAAAA"` cached in memory, `personal_sign`
delegates with `expectAddress = "0xAAAA"` and changes nothing. -/
theorem C6_sign_methods_use_cached_address_or_connect_witness :
    MavisIdWallet.request sampleChecksum sampleWallet
        { address := some "0xAAAA", storage := none }
        (Except.error (IdError.comm "popup closed")) RpcMethod.personal_sign =
      (Except.ok (RpcResult.signCall RpcMethod.personal_sign "0xAAAA"),
        { address := some "0xAAAA", storage := none }, []) :=
  (C6_sign_methods_use_cached_address_or_connect sampleChecksum sampleWallet
      { address := some "0xAAAA", storage := none }
      (Except.error (IdError.comm "popup closed")) RpcMethod.personal_sign rfl).1
    "0xAAAA" rfl

/-- Claim C7: `MavisIdWallet.create` throws the unsupported-chain error
(viem's `ChainDisconnectedError` wrapping `Chain {chainId} is not
supported.`) whenever the chain id has no entry in the known network
mapping, returning no instance; for every mapped chain id it returns the
fully constructed instance. -/
theorem C7_create_requires_mapped_chain
    (supported : Nat → Bool) (options : MavisIdWalletOpts) :
    (supported options.chainId = false →
      MavisIdWallet.create supported options =
        Except.error (IdError.chainDisconnected options.chainId)) ∧
    (supported options.chainId = true →
      MavisIdWallet.create supported options =
        Except.ok
          { clientId := options.clientId
            idOrigin := options.idOrigin
            redirectUrl := options.redirectUrl
            scopes := MavisIdWallet.addDefaultScopes options.scopes
            chainId := options.chainId
            viemClient := ⟨options.chainId⟩ }) := by
  constructor <;> intro h <;>
    simp [MavisIdWallet.create, MavisIdWallet.createViemClient, h]

/-- Witness for C7: chain 2020 is mapped and construction succeeds; chain 1
is unmapped and construction throws. -/
theorem C7_create_requires_mapped_chain_witness :
    MavisIdWallet.create sampleSupported sampleOpts = Except.ok sampleWallet ∧
    MavisIdWallet.create sampleSupported { sampleOpts with chainId := 1 } =
      Except.error (IdError.chainDisconnected 1) :=
  ⟨(C7_create_requires_mapped_chain sampleSupported sampleOpts).2 (by decide),
    (C7_create_requires_mapped_chain sampleSupported
      { sampleOpts with chainId := 1 }).1 (by decide)⟩

/-- Claim C8: `parseRedirectUrl` on the current location's query string
throws `"parseRedirectUrl: invalid method"` whenever the `method` parameter
is not `auth`, throws `"parseRedirectUrl: authorization failed"` whenever
`method` is `auth` but the `type` parameter is not `success`, and when both
checks pass returns the `state` parameter, the `data` parameter as
`accessToken`, and the validated `address` parameter. -/
theorem C8_parseRedirectUrl_discriminator_checks
    (checksum : String → Option String) (query : List (String × String)) :
    (searchParamsGet query "method" ≠ some "auth" →
      parseRedirectUrl checksum query =
        Except.error (IdError.thrown "parseRedirectUrl: invalid method")) ∧
    (searchParamsGet query "method" = some "auth" →
      searchParamsGet query "type" ≠ some "success" →
      parseRedirectUrl checksum query =
        Except.error (IdError.thrown "parseRedirectUrl: authorization failed")) ∧
    (searchParamsGet query "method" = some "auth" →
      searchParamsGet query "type" = some "success" →
      parseRedirectUrl checksum query =
        Except.ok
          { state := searchParamsGet query "state"
            accessToken := searchParamsGet query "data"
            address := validateIdAddress checksum (searchParamsGet query "address") }) := by
  refine ⟨fun h => ?_, fun h1 h2 => ?_, fun h1 h2 => ?_⟩ <;>
    simp [parseRedirectUrl, *]

/-- Witness for C8: a well-formed redirect query yields the parsed triple;
a query with `type=fail` throws the authorization-failed error; a query
with `method=other` throws the invalid-method error. -/
theorem C8_parseRedirectUrl_discriminator_checks_witness :
    parseRedirectUrl sampleChecksum
        [("method", "auth"), ("type", "success"), ("state", "t-1"),
          ("data", "tok"), ("address", "0xAAAA")] =
      Except.ok { state := some "t-1", accessToken := some "tok",
                  address := some "0xAAAA" } ∧
    parseRedirectUrl sampleChecksum [("method", "auth"), ("type", "fail")] =
      Except.error (IdError.thrown "parseRedirectUrl: authorization failed") ∧
    parseRedirectUrl sampleChecksum [("method", "other")] =
      Except.error (IdError.thrown "parseRedirectUrl: invalid method") :=
  ⟨(C8_parseRedirectUrl_discriminator_checks sampleChecksum
      [("method", "auth"), ("type", "success"), ("state", "t-1"),
        ("data", "tok"), ("address", "0xAAAA")]).2.2 (by decide) (by decide),
    (C8_parseRedirectUrl_discriminator_checks sampleChecksum
      [("method", "auth"), ("type", "fail")]).2.1 (by decide) (by decide),
    (C8_parseRedirectUrl_discriminator_checks sampleChecksum
      [("method", "other")]).1 (by decide)⟩

/-- Claim C9: every constructed instance's effective scope list extends the
caller-supplied scopes (the caller's list is an unchanged prefix), contains
`"openid"` and `"wallet"`, and each of the two defaults is appended exactly
once when the caller did not already include it (its count grows by one
exactly then, and stays otherwise). -/
theorem C9_scopes_default_invariant
    (supported : Nat → Bool) (options : MavisIdWalletOpts) (w : Wallet)
    (h : MavisIdWallet.create supported options = Except.ok w) :
    (∃ extra, w.scopes = options.scopes ++ extra) ∧
    w.scopes.contains "openid" = true ∧
    w.scopes.contains "wallet" = true ∧
    w.scopes.count "openid" =
      options.scopes.count "openid" +
        (if options.scopes.contains "openid" then 0 else 1) ∧
    w.scopes.count "wallet" =
      options.scopes.count "wallet" +
        (if options.scopes.contains "wallet" then 0 else 1) := by
  have hw : w.scopes = MavisIdWallet.addDefaultScopes options.scopes := by
    by_cases hs : supported options.chainId = true
    · simp only [MavisIdWallet.create, MavisIdWallet.createViemClient, hs,
        if_true] at h
      rw [← Except.ok.inj h]
    · rw [Bool.not_eq_true] at hs
      simp [MavisIdWallet.create, MavisIdWallet.createViemClient, hs] at h
  rw [hw]
  set scopes := options.scopes with hscopes
  by_cases h1 : scopes.contains "openid" = true <;>
    by_cases h2 : scopes.contains "wallet" = true
  · have m1 : "openid" ∈ scopes := by simpa using h1
    have m2 : "wallet" ∈ scopes := by simpa using h2
    refine ⟨⟨[], by simp [MavisIdWallet.addDefaultScopes, m1, m2]⟩, ?_, ?_, ?_, ?_⟩ <;>
      simp [MavisIdWallet.addDefaultScopes, m1, m2]
  · have m1 : "openid" ∈ scopes := by simpa using h1
    have m2 : "wallet" ∉ scopes := by simpa using h2
    refine ⟨⟨["wallet"], by simp [MavisIdWallet.addDefaultScopes, m1, m2]⟩,
        ?_, ?_, ?_, ?_⟩ <;>
      simp [MavisIdWallet.addDefaultScopes, m1, m2, List.count_append]
  · have m1 : "openid" ∉ scopes := by simpa using h1
    have m2 : "wallet" ∈ scopes := by simpa using h2
    refine ⟨⟨["openid"], by simp [MavisIdWallet.addDefaultScopes, m1, m2]⟩,
        ?_, ?_, ?_, ?_⟩ <;>
      simp [MavisIdWallet.addDefaultScopes, m1, m2, List.count_append]
  · have m1 : "openid" ∉ scopes := by simpa using h1
    have m2 : "wallet" ∉ scopes := by simpa using h2
    refine ⟨⟨["openid", "wallet"],
        by simp [MavisIdWallet.addDefaultScopes, m1, m2]⟩, ?_, ?_, ?_, ?_⟩ <;>
      simp [MavisIdWallet.addDefaultScopes, m1, m2, List.count_append]

/-- Witness for C9: constructing with `scopes = ["profile"]` yields
`["profile", "openid", "wallet"]`, which satisfies every conjunct. -/
theorem C9_scopes_default_invariant_witness :
    (∃ extra, sampleWallet.scopes = sampleOpts.scopes ++ extra) ∧
    sampleWallet.scopes.contains "openid" = true ∧
    sampleWallet.scopes.contains "wallet" = true ∧
    sampleWallet.scopes.count "openid" =
      sampleOpts.scopes.count "openid" +
        (if sampleOpts.scopes.contains "openid" then 0 else 1) ∧
    sampleWallet.scopes.count "wallet" =
      sampleOpts.scopes.count "wallet" +
        (if sampleOpts.scopes.contains "wallet" then 0 else 1) :=
  C9_scopes_default_invariant sampleSupported sampleOpts sampleWallet rfl

/-- Claim C10: on a successful handshake payload whose address fails
validation, the standalone `authorize` resolves successfully with
`address = undefined`, while `MavisIdWallet.connect` on the same payload
rejects with the unauthorized error — the two entry points disagree on
whether an invalid address is an error. -/
theorem C10_authorize_and_connect_disagree_on_invalid_address
    (checksum : String → Option String) (w : Wallet) (s : WalletState)
    (resp : IdResponse)
    (h : validateIdAddress checksum resp.address = none) :
    authorize checksum (Except.ok resp) =
      Except.ok { accessToken := resp.id_token, address := none } ∧
    MavisIdWallet.connect checksum w s (Except.ok resp) =
      (Except.error (IdError.unauthorizedProvider "ID do NOT return valid address"),
        s, []) := by
  constructor
  · simp [authorize, h]
  · simp [MavisIdWallet.connect, h]

/-- Witness for C10: the invalid address `"0xZZ"` makes `authorize` resolve
with no address while `connect` rejects. -/
theorem C10_authorize_and_connect_disagree_on_invalid_address_witness :
    authorize sampleChecksum
        (Except.ok { id_token := some "tok", address := some "0xZZ" }) =
      Except.ok { accessToken := some "tok", address := none } ∧
    MavisIdWallet.connect sampleChecksum sampleWallet
        { address := none, storage := none }
        (Except.ok { id_token := some "tok", address := some "0xZZ" }) =
      (Except.error (IdError.unauthorizedProvider "ID do NOT return valid address"),
        { address := none, storage := none }, []) :=
  C10_authorize_and_connect_disagree_on_invalid_address sampleChecksum sampleWallet
    { address := none, storage := none }
    { id_token := some "tok", address := some "0xZZ" } (by decide)
